import Mathlib

/-!
Verification of the diligent-ecommerce-analytics repository.

Shallow embedding of `src/generate_data.py`, `src/load_database.py` and the
load-related parts of `src/main.py`.

Modelling conventions:
* Money values are rationals (`ℚ`); Python's `round(x, 2)` / `round(x, 1)` are
  `round2` / `round1` (floor of the scaled value plus one half; Python's
  float round uses banker's rounding at exact ties, which no claim depends on).
* Datetimes are integers (epoch seconds).  Faker's
  `date_time_between(start_date, end_date)` picks a point between two bounds
  that are offsets from the CURRENT time, so it is modelled with the current
  time `now : ℤ` as an explicit parameter (`date_time_between`).
* The seeded random sources (`random.seed(42)` / `Faker.seed(42)`) determine a
  stream of raw draws; each generator is parameterised by the streams of draws
  it consumes (one value per record id / call site).  `random.randint a b` with
  raw draw `r` is `randint r a b`; `random.choice l` with raw draw `r` is
  `choice l d r`; `random.uniform a b` with raw draw `u ∈ [0,1]` is
  `uniformR u a b`.  Faker's string-producing methods (`first_name`, `email`,
  ...) are streams of strings indexed by record id.
-/

namespace ECom

/-- Python `round(q, 2)`: round to 2 decimal places. -/
def round2 (q : ℚ) : ℚ := (⌊q * 100 + 1/2⌋ : ℚ) / 100

/-- Python `round(q, 1)`: round to 1 decimal place. -/
def round1 (q : ℚ) : ℚ := (⌊q * 10 + 1/2⌋ : ℚ) / 10

/-- Python `random.randint(a, b)` driven by raw draw `r`: a value in `[a, b]`. -/
def randint (r a b : ℕ) : ℕ := a + r % (b - a + 1)

/-- Python `random.uniform(a, b)` driven by raw draw `u ∈ [0, 1]`. -/
def uniformR (u a b : ℚ) : ℚ := a + u * (b - a)

/-- Python `random.choice(l)` driven by raw draw `r` (with a default for `l = []`;
the Python call raises on an empty list, which never happens in this program). -/
def choice (l : List α) (d : α) (r : ℕ) : α := l.getD (r % l.length) d

theorem choice_mem (l : List α) (d : α) (r : ℕ) (h : l ≠ []) : choice l d r ∈ l := by
  unfold choice
  have hlen : 0 < l.length := List.length_pos.mpr h
  have : r % l.length < l.length := Nat.mod_lt _ hlen
  rw [List.getD_eq_getElem l d this]
  exact List.getElem_mem this

/-- One day in seconds. -/
def ONE_DAY : ℤ := 86400

/-- One year (365 days) in seconds. -/
def ONE_YEAR : ℤ := 365 * ONE_DAY

/-- Two years in seconds (Faker's `'-2y'` offset). -/
def TWO_YEARS : ℤ := 730 * ONE_DAY

/-- Three years in seconds (Faker's `'-3y'` offset). -/
def THREE_YEARS : ℤ := 1095 * ONE_DAY

/-- Faker `date_time_between(start_date, end_date)` driven by raw draw `r`:
both bounds are offsets `lo ≤ hi` relative to the current time `now`, and the
result lies in `[now + lo, now + hi]`.  The dependence on `now` is the point:
`end_date='now'` makes the generated datetimes a function of the wall clock. -/
def date_time_between (r : ℕ) (now lo hi : ℤ) : ℤ :=
  now + lo + (r : ℤ) % (hi - lo + 1)

/-! ## Record types (the five CSV collections of `generate_data.py`) -/

/-- A customer record (`generate_customers`, `src/generate_data.py:45-74`). -/
structure Customer where
  customer_id : ℕ
  first_name : String
  last_name : String
  email : String
  phone : String
  address : String
  city : String
  state : String
  zip_code : String
  country : String
  created_at : ℤ
  customer_segment : String
deriving DecidableEq, Inhabited

/-- A product record (`generate_products`, `src/generate_data.py:81-138`). -/
structure Product where
  product_id : ℕ
  product_name : String
  category : String
  price : ℚ
  cost : ℚ
  stock_quantity : ℕ
  supplier : String
  created_at : ℤ
  rating : ℚ
deriving DecidableEq, Inhabited

/-- An order record (`generate_orders`, `src/generate_data.py:145-187`).
`shipped_date` / `delivery_date` are `none` when the Python code stores `None`. -/
structure Order where
  order_id : ℕ
  customer_id : ℕ
  order_date : ℤ
  status : String
  shipping_address : String
  shipped_date : Option ℤ
  delivery_date : Option ℤ
  total_amount : ℚ
deriving DecidableEq, Inhabited

/-- An order-item record (`generate_order_items`, `src/generate_data.py:194-259`). -/
structure OrderItem where
  order_item_id : ℕ
  order_id : ℕ
  product_id : ℕ
  quantity : ℕ
  unit_price : ℚ
  discount : ℚ
  total : ℚ
deriving DecidableEq, Inhabited

/-- A payment record (`generate_payments`, `src/generate_data.py:266-307`). -/
structure Payment where
  payment_id : ℕ
  order_id : ℕ
  payment_date : ℤ
  payment_method : String
  payment_amount : ℚ
  transaction_fee : ℚ
  status : String
  transaction_id : String
deriving DecidableEq, Inhabited

/-! ## Generators -/

/-- The list `['Regular', 'Premium', 'VIP', 'New']` (`src/generate_data.py:62`). -/
def SEGMENTS : List String := ["Regular", "Premium", "VIP", "New"]

/-- The per-record raw draws consumed by `generate_customers`: Faker string
methods and the draws for `created_at` and the segment choice, indexed by
customer id.  All streams are fixed by the seed (`Faker.seed(42)` /
`random.seed(42)`). -/
structure CustomerStreams where
  first_name : ℕ → String
  last_name : ℕ → String
  email : ℕ → String
  phone : ℕ → String
  street : ℕ → String
  city : ℕ → String
  stateAbbr : ℕ → String
  zip : ℕ → String
  createdAt : ℕ → ℕ
  segSel : ℕ → ℕ

/-- One customer record (`src/generate_data.py:50-63`).  `created_at` is
`fake.date_time_between(start_date='-2y', end_date='now')`. -/
def mk_customer (S : CustomerStreams) (now : ℤ) (cid : ℕ) : Customer :=
  { customer_id := cid
    first_name := S.first_name cid
    last_name := S.last_name cid
    email := S.email cid
    phone := S.phone cid
    address := S.street cid
    city := S.city cid
    state := S.stateAbbr cid
    zip_code := S.zip cid
    country := "USA"
    created_at := date_time_between (S.createdAt cid) now (-TWO_YEARS) 0
    customer_segment := choice SEGMENTS "Regular" (S.segSel cid) }

/-- Function `generate_customers` (`src/generate_data.py:45-74`): records with
sequential ids `1..n`. -/
def generate_customers (n : ℕ) (S : CustomerStreams) (now : ℤ) : List Customer :=
  (List.range n).map (fun i => mk_customer S now (i + 1))

/-- One product category together with its price range (`categories`,
`src/generate_data.py:86-97`), the head word of its name
(`category.split()[0]`, used at line 119) and its name prefixes
(`product_prefixes`, lines 99-110). -/
structure ProductCategory where
  name : String
  headWord : String
  lo : ℚ
  hi : ℚ
  pfxs : List String
deriving DecidableEq, Inhabited

/-- The ten categories, in dict insertion order (`src/generate_data.py:86-110`). -/
def CATEGORIES : List ProductCategory :=
  [⟨"Electronics", "Electronics", 50, 2000,
      ["Smart", "Pro", "Ultra", "Premium", "Wireless", "Digital"]⟩,
   ⟨"Clothing", "Clothing", 15, 200,
      ["Classic", "Modern", "Casual", "Formal", "Comfort", "Style"]⟩,
   ⟨"Home & Kitchen", "Home", 10, 500,
      ["Essential", "Deluxe", "Professional", "Premium", "Eco"]⟩,
   ⟨"Books", "Books", 5, 50,
      ["The Art of", "Guide to", "Complete", "Mastering", "Introduction to"]⟩,
   ⟨"Sports & Outdoors", "Sports", 20, 300,
      ["Pro", "Adventure", "Elite", "Performance", "Outdoor"]⟩,
   ⟨"Beauty & Personal Care", "Beauty", 8, 100,
      ["Natural", "Organic", "Premium", "Luxury", "Essential"]⟩,
   ⟨"Toys & Games", "Toys", 10, 150,
      ["Fun", "Educational", "Creative", "Action", "Adventure"]⟩,
   ⟨"Automotive", "Automotive", 15, 500,
      ["Premium", "Heavy Duty", "Professional", "Universal", "High Performance"]⟩,
   ⟨"Food & Grocery", "Food", 5, 100,
      ["Organic", "Fresh", "Gourmet", "Natural", "Premium"]⟩,
   ⟨"Health & Wellness", "Health", 10, 200,
      ["Natural", "Organic", "Premium", "Advanced", "Essential"]⟩]

/-- The per-record raw draws consumed by `generate_products`. -/
structure ProductStreams where
  catSel : ℕ → ℕ
  pfxSel : ℕ → ℕ
  word : ℕ → String
  supplier : ℕ → String
  priceU : ℕ → ℚ
  costU : ℕ → ℚ
  ratingU : ℕ → ℚ
  stockSel : ℕ → ℕ
  createdAt : ℕ → ℕ

/-- One product record (`src/generate_data.py:112-128`).  `word` models
`fake.word().capitalize()`; `created_at` is
`fake.date_time_between(start_date='-3y', end_date='-1y')`. -/
def mk_product (S : ProductStreams) (now : ℤ) (pid : ℕ) : Product :=
  let cat := choice CATEGORIES default (S.catSel pid)
  let pfx := choice cat.pfxs "Premium" (S.pfxSel pid)
  { product_id := pid
    product_name := pfx ++ " " ++ S.word pid ++ " " ++ cat.headWord
    category := cat.name
    price := round2 (uniformR (S.priceU pid) cat.lo cat.hi)
    cost := round2 (uniformR (S.costU pid) (cat.lo * (2/5)) (cat.lo * (7/10)))
    stock_quantity := randint (S.stockSel pid) 0 500
    supplier := S.supplier pid
    created_at := date_time_between (S.createdAt pid) now (-THREE_YEARS) (-ONE_YEAR)
    rating := round1 (uniformR (S.ratingU pid) 3 5) }

/-- Function `generate_products` (`src/generate_data.py:81-138`). -/
def generate_products (n : ℕ) (S : ProductStreams) (now : ℤ) : List Product :=
  (List.range n).map (fun i => mk_product S now (i + 1))

/-- The list `['Pending', 'Processing', 'Shipped', 'Delivered', 'Cancelled']`
(`src/generate_data.py:149`). -/
def ORDER_STATUSES : List String :=
  ["Pending", "Processing", "Shipped", "Delivered", "Cancelled"]

/-- The per-record raw draws consumed by `generate_orders`. -/
structure OrderStreams where
  custSel : ℕ → ℕ
  orderDate : ℕ → ℕ
  shipDays : ℕ → ℕ
  deliverDays : ℕ → ℕ
  statusSel : ℕ → ℕ
  street : ℕ → String
  city : ℕ → String
  stateAbbr : ℕ → String
  zip : ℕ → String

/-- One order record (`src/generate_data.py:152-177`).  The weighted
`random.choices(order_statuses, weights=status_weights)[0]` is modelled as a
selection from the same five statuses (the weights change the distribution,
not the support).  `shipped_date` / `delivery_date` are stored only for the
statuses the code keeps them for; `total_amount` starts at `0.0` and is
recomputed by `generate_order_items`. -/
def mk_order (customers : List Customer) (S : OrderStreams) (now : ℤ) (oid : ℕ) : Order :=
  let customer := choice customers default (S.custSel oid)
  let order_date := date_time_between (S.orderDate oid) now (-ONE_YEAR) 0
  let shipped := order_date + ONE_DAY * (randint (S.shipDays oid) 1 7 : ℤ)
  let delivery := shipped + ONE_DAY * (randint (S.deliverDays oid) 2 10 : ℤ)
  let status := choice ORDER_STATUSES "Pending" (S.statusSel oid)
  { order_id := oid
    customer_id := customer.customer_id
    order_date := order_date
    status := status
    shipping_address :=
      S.street oid ++ ", " ++ S.city oid ++ ", " ++ S.stateAbbr oid ++ " " ++ S.zip oid
    shipped_date := if status = "Shipped" ∨ status = "Delivered" then some shipped else none
    delivery_date := if status = "Delivered" then some delivery else none
    total_amount := 0 }

/-- Function `generate_orders` (`src/generate_data.py:145-187`): orders with
sequential ids `1..n`, each referencing a uniformly chosen customer. -/
def generate_orders (n : ℕ) (customers : List Customer) (S : OrderStreams) (now : ℤ) :
    List Order :=
  (List.range n).map (fun i => mk_order customers S now (i + 1))

/-- The per-item raw draws consumed by `generate_order_items`. -/
structure OrderItemStreams where
  ordSel : ℕ → ℕ
  prodSel : ℕ → ℕ
  qty : ℕ → ℕ
  pv : ℕ → ℚ
  discRoll : ℕ → ℚ
  discAmt : ℕ → ℚ

/-- One order item (`src/generate_data.py:201-237`): a uniformly chosen order
and product, `quantity = randint(1, 10)`, a `uniform(0.95, 1.05)` price
variation, a 20%-probability discount of `uniform(0.05, 0.20)` of the
subtotal (`random.random() < 0.2` is `discRoll i < 1/5`), and
`total = round(subtotal - discount, 2)`. -/
def mk_order_item (orders : List Order) (products : List Product)
    (S : OrderItemStreams) (i : ℕ) : OrderItem :=
  let o := choice orders default (S.ordSel i)
  let p := choice products default (S.prodSel i)
  let quantity := randint (S.qty i) 1 10
  let unit_price := round2 (p.price * uniformR (S.pv i) (19/20) (21/20))
  let subtotal := round2 (unit_price * (quantity : ℚ))
  let discount :=
    if S.discRoll i < 1/5 then round2 (subtotal * uniformR (S.discAmt i) (1/20) (1/5)) else 0
  let total := round2 (subtotal - discount)
  { order_item_id := i
    order_id := o.order_id
    product_id := p.product_id
    quantity := quantity
    unit_price := unit_price
    discount := discount
    total := total }

/-- The `order_totals` dict update `order_totals[order_id] += total`
(`src/generate_data.py:235`), as a function update. -/
def bump (t : ℕ → ℚ) (oid : ℕ) (x : ℚ) : ℕ → ℚ :=
  fun k => if k = oid then t k + x else t k

/-- The `order_totals` accumulation over the generated items
(`src/generate_data.py:197` initialises every order id to `0.0`,
line 235 adds each item's `total` to its order's entry). -/
def accum_totals : (ℕ → ℚ) → List OrderItem → (ℕ → ℚ)
  | t, [] => t
  | t, it :: rest => accum_totals (bump t it.order_id it.total) rest

/-- Function `generate_order_items` (`src/generate_data.py:194-259`): returns the
items (ids `1..m`) and the orders with `total_amount` recomputed as
`round(order_totals[order_id], 2)` (line 250; the Python code mutates the
`orders` list in place, modelled by returning the updated list). -/
def generate_order_items (orders : List Order) (products : List Product) (m : ℕ)
    (S : OrderItemStreams) : List OrderItem × List Order :=
  let items := (List.range m).map (fun j => mk_order_item orders products S (j + 1))
  let totals := accum_totals (fun _ => 0) items
  (items, orders.map (fun o => { o with total_amount := round2 (totals o.order_id) }))

/-- Payment methods (`src/generate_data.py:270`). -/
def PAYMENT_METHODS : List String :=
  ["Credit Card", "Debit Card", "PayPal", "Apple Pay", "Google Pay", "Bank Transfer"]

/-- Payment statuses (`src/generate_data.py:271`). -/
def PAYMENT_STATUSES : List String := ["Completed", "Pending", "Failed", "Refunded"]

/-- The per-payment raw draws consumed by `generate_payments`. -/
structure PaymentStreams where
  payMin : ℕ → ℕ
  methodSel : ℕ → ℕ
  statusSel : ℕ → ℕ
  feeU : ℕ → ℚ
  txid : ℕ → String

/-- One payment (`src/generate_data.py:274-297`): `payment_amount` is the
order's `total_amount` (line 282), `transaction_fee` is
`round(payment_amount * uniform(0.02, 0.03), 2)` (line 285) and is not added
to `payment_amount`; `payment_date` is the order date plus 0-30 minutes. -/
def mk_payment (S : PaymentStreams) (pid : ℕ) (o : Order) : Payment :=
  { payment_id := pid
    order_id := o.order_id
    payment_date := o.order_date + 60 * (randint (S.payMin pid) 0 30 : ℤ)
    payment_method := choice PAYMENT_METHODS "Credit Card" (S.methodSel pid)
    payment_amount := o.total_amount
    transaction_fee := round2 (o.total_amount * uniformR (S.feeU pid) (1/50) (3/100))
    status := choice PAYMENT_STATUSES "Completed" (S.statusSel pid)
    transaction_id := S.txid pid }

/-- The loop `for payment_id, order in enumerate(orders, start=1)`
(`src/generate_data.py:274`). -/
def payments_from (S : PaymentStreams) : ℕ → List Order → List Payment
  | _, [] => []
  | pid, o :: rest => mk_payment S pid o :: payments_from S (pid + 1) rest

/-- Function `generate_payments` (`src/generate_data.py:266-307`): one payment per
order, enumerated from 1. -/
def generate_payments (orders : List Order) (S : PaymentStreams) : List Payment :=
  payments_from S 1 orders

/-! ## The full generation pipeline (`main`, `src/generate_data.py:314-335`) -/

/-- The five generated collections. -/
structure Dataset where
  customers : List Customer
  products : List Product
  orders : List Order
  order_items : List OrderItem
  payments : List Payment
deriving DecidableEq

/-- All raw draws of one run: the streams are fully determined by the fixed
seed 42 (`Faker.seed(42)` / `random.seed(42)`, `src/generate_data.py:16-17`). -/
structure Streams where
  cust : CustomerStreams
  prod : ProductStreams
  ord : OrderStreams
  item : OrderItemStreams
  pay : PaymentStreams

/-- Configuration `NUM_CUSTOMERS = random.randint(100, 300)` (`src/generate_data.py:24`);
the other counts are drawn the same way (lines 25-28). -/
def NUM_CUSTOMERS (r : ℕ) : ℕ := randint r 100 300

/-- The generation pipeline (`src/generate_data.py:314-323`): customers, then
products, then orders, then order items (which rewrites the order totals),
then payments computed from the UPDATED orders (the in-place mutation at
line 250 is visible to `generate_payments(orders)` at line 323). -/
def generate_dataset (nc np no ni : ℕ) (S : Streams) (now : ℤ) : Dataset :=
  let customers := generate_customers nc S.cust now
  let products := generate_products np S.prod now
  let orders0 := generate_orders no customers S.ord now
  let oi := generate_order_items orders0 products ni S.item
  let payments := generate_payments oi.2 S.pay
  { customers := customers
    products := products
    orders := oi.2
    order_items := oi.1
    payments := payments }

/-! ## CSV rendering (the `csv.DictWriter` output, `src/generate_data.py`)

A shallow stand-in for the byte output: fields joined by commas in the dict
field order, rows joined by CRLF, `None` written as the empty string. -/

/-- Join one CSV row. -/
def csv_row (fields : List String) : String := String.intercalate "," fields

/-- Render an optional datetime the way `csv.DictWriter` writes `None`. -/
def csv_opt : Option ℤ → String
  | none => ""
  | some t => toString t

/-- One line of `customers.csv` (field order of `src/generate_data.py:50-63`). -/
def customer_row (c : Customer) : String :=
  csv_row [toString c.customer_id, c.first_name, c.last_name, c.email, c.phone,
           c.address, c.city, c.state, c.zip_code, c.country,
           toString c.created_at, c.customer_segment]

/-- The rendered `customers.csv` (header line plus one line per record). -/
def customers_csv (cs : List Customer) : String :=
  String.intercalate "\r\n"
    (csv_row ["customer_id", "first_name", "last_name", "email", "phone", "address",
              "city", "state", "zip_code", "country", "created_at", "customer_segment"]
      :: cs.map customer_row)

/-- One line of `orders.csv` (field order of `src/generate_data.py:167-176`). -/
def order_row (o : Order) : String :=
  csv_row [toString o.order_id, toString o.customer_id, toString o.order_date,
           o.status, o.shipping_address, csv_opt o.shipped_date,
           csv_opt o.delivery_date, toString o.total_amount]

/-- One line of `order_items.csv` (field order of `src/generate_data.py:223-231`). -/
def order_item_row (it : OrderItem) : String :=
  csv_row [toString it.order_item_id, toString it.order_id, toString it.product_id,
           toString it.quantity, toString it.unit_price, toString it.discount,
           toString it.total]

/-- One line of `payments.csv` (field order of `src/generate_data.py:287-296`). -/
def payment_row (p : Payment) : String :=
  csv_row [toString p.payment_id, toString p.order_id, toString p.payment_date,
           p.payment_method, toString p.payment_amount, toString p.transaction_fee,
           p.status, p.transaction_id]

/-- One line of `products.csv` (field order of `src/generate_data.py:117-127`). -/
def product_row (p : Product) : String :=
  csv_row [toString p.product_id, p.product_name, p.category, toString p.price,
           toString p.cost, toString p.stock_quantity, p.supplier,
           toString p.created_at, toString p.rating]

/-- The concatenated byte output of the whole generation step: all five CSV
files rendered one after the other. -/
def dataset_csv (D : Dataset) : String :=
  customers_csv D.customers ++ "\n" ++
  String.intercalate "\r\n" (D.products.map product_row) ++ "\n" ++
  String.intercalate "\r\n" (D.orders.map order_row) ++ "\n" ++
  String.intercalate "\r\n" (D.order_items.map order_item_row) ++ "\n" ++
  String.intercalate "\r\n" (D.payments.map payment_row)

/-! ## The database loader (`src/load_database.py`)

SQLite state is modelled as committed rows per table name; a CSV value is a
`String`, a stored value an `Option String` (`''` is normalised to `NULL`,
`src/load_database.py:208`).  Whether `cursor.execute` raises
`sqlite3.Error` for a given row is abstracted as a predicate `viol` on the
table name, the row, and the rows already in the table (committed plus
pending), which is how SQLite's unique/foreign-key/check constraints see an
insert. -/

/-- A stored row: one `Option String` per column. -/
abbrev Row := List (Option String)

/-- Committed table contents, by table name. -/
abbrev DB := String → List Row

/-- A CSV file on disk: header plus data rows. -/
structure CsvFile where
  header : List String
  rows : List (List String)
deriving DecidableEq, Inhabited

/-- Normalization `values = [val if val != '' else None for val in row.values()]`
(`src/load_database.py:208`). -/
def normalizeRow (r : List String) : Row :=
  r.map (fun v => if v = "" then none else some v)

/-- The insert loop of `load_csv_to_table` (`src/load_database.py:206-210`):
rows are executed one at a time against the current table contents; the
first row for which the constraint predicate fires raises, aborting the loop
(`none`).  On success the final table contents are returned. -/
def insertAll (viol : Row → List Row → Bool) : List Row → List Row → Option (List Row)
  | cur, [] => some cur
  | cur, r :: rs => if viol r cur then none else insertAll viol (cur ++ [r]) rs

/-- The result of one `load_csv_to_table` call: the database after the call,
the returned row count, and the error message printed (if any). -/
structure LoadResult where
  db : DB
  count : ℕ
  message : Option String

/-- Function `load_csv_to_table` (`src/load_database.py:181-223`): a missing CSV file
is reported and the function returns 0 (lines 186-188); a constraint
violation rolls the batch back (`conn.rollback()`), reports the table name
and returns 0 (lines 216-219); on success the batch is committed and the
row count returned (lines 212-214). -/
def load_csv_to_table (fs : String → Option CsvFile)
    (viol : String → Row → List Row → Bool) (db : DB)
    (table_name csv_file : String) : LoadResult :=
  match fs ("data/" ++ csv_file) with
  | none =>
      { db := db, count := 0
        message := some ("CSV file not found: data/" ++ csv_file) }
  | some f =>
      let rows := f.rows.map normalizeRow
      match insertAll (viol table_name) (db table_name) rows with
      | some newRows =>
          { db := fun t => if t = table_name then newRows else db t
            count := rows.length
            message := none }
      | none =>
          { db := db, count := 0
            message := some ("Error loading " ++ table_name) }

/-- Function `create_connection` (`src/load_database.py:34-52`): an existing database
file at `DB_NAME` is deleted (`os.remove`) before a fresh database is
created, so the connection always starts from empty tables. -/
def create_connection (fsPrior : Option DB) : DB :=
  match fsPrior with
  | some _ => fun _ => []
  | none => fun _ => []

/-- The load loop's accumulated state (`src/load_database.py:424-430`):
the database, the per-table row counts, and the printed error messages. -/
structure LoadAllResult where
  db : DB
  counts : List (String × ℕ)
  messages : List String

/-- The `load_order` list with the `CSV_FILES` mapping
(`src/load_database.py:18-24`, `425`). -/
def LOAD_ORDER : List (String × String) :=
  [("customers", "customers.csv"), ("products", "products.csv"),
   ("orders", "orders.csv"), ("order_items", "order_items.csv"),
   ("payments", "payments.csv")]

/-- The `for table_name in load_order` loop (`src/load_database.py:427-430`):
every table is attempted regardless of earlier results and the returned
counts are accumulated. -/
def load_all (fs : String → Option CsvFile) (viol : String → Row → List Row → Bool)
    (db : DB) : LoadAllResult :=
  LOAD_ORDER.foldl
    (fun acc tf =>
      let r := load_csv_to_table fs viol acc.db tf.1 tf.2
      { db := r.db
        counts := acc.counts ++ [(tf.1, r.count)]
        messages := acc.messages ++ r.message.toList })
    { db := db, counts := [], messages := [] }

/-- Function `load_database.main` (`src/load_database.py:401-460`): create the
connection (destroying any prior database file), create the schema, and load
all five tables.  The function always runs to completion and returns
normally. -/
def load_database_main (fs : String → Option CsvFile)
    (viol : String → Row → List Row → Bool) (fsPrior : Option DB) : LoadAllResult :=
  load_all fs viol (create_connection fsPrior)

/-- Function `step_2_load_database` (`src/main.py:124-167`): runs
`load_database.main()` and returns `True` when the database file exists
afterwards — which it always does, because `create_connection` creates it;
no failure inside the load loop reaches this boolean. -/
def step_2_load_database (fs : String → Option CsvFile)
    (viol : String → Row → List Row → Bool) (fsPrior : Option DB) :
    Bool × LoadAllResult :=
  (true, load_database_main fs viol fsPrior)

/-- The exit code of `main.py` for a run that performs the load step
(`sys.exit(0 if success else 1)`, `src/main.py:422`, with the pipeline
restricted to step 2 as under `--skip-data --skip-query`). -/
def pipeline_exit_code (fs : String → Option CsvFile)
    (viol : String → Row → List Row → Bool) (fsPrior : Option DB) : ℕ :=
  if (step_2_load_database fs viol fsPrior).1 then 0 else 1

/-! ## Helper lemmas -/

theorem round2_zero : round2 0 = 0 := by
  norm_num [round2]

/-- The sum of the `total` fields of the items referencing order id `oid`
(the quantity the spec compares `total_amount` against). -/
def items_total_for (items : List OrderItem) (oid : ℕ) : ℚ :=
  ((items.filter (fun it => it.order_id == oid)).map OrderItem.total).sum

/-- The `order_totals` dict equals, at every key, the sum of the totals of
the items referencing that key (the per-key view of the accumulation loop at
`src/generate_data.py:235`). -/
theorem accum_totals_spec (items : List OrderItem) (t : ℕ → ℚ) (k : ℕ) :
    accum_totals t items k = t k + items_total_for items k := by
  induction items generalizing t with
  | nil => simp [accum_totals, items_total_for]
  | cons a rest ih =>
      rw [accum_totals, ih]
      by_cases h : k = a.order_id
      · subst h
        simp [items_total_for, bump, List.filter_cons]
        ring
      · have hb : (a.order_id == k) = false := by
          simp only [beq_eq_false_iff_ne, ne_eq]
          exact fun hc => h hc.symm
        simp [items_total_for, bump, List.filter_cons, h, hb]

/-- The first component of `generate_order_items` is the generated item list. -/
theorem generate_order_items_fst (orders : List Order) (products : List Product)
    (m : ℕ) (S : OrderItemStreams) :
    (generate_order_items orders products m S).1
      = (List.range m).map (fun j => mk_order_item orders products S (j + 1)) := rfl

/-- The second component of `generate_order_items` rewrites each order's
`total_amount` from the accumulated totals. -/
theorem generate_order_items_snd (orders : List Order) (products : List Product)
    (m : ℕ) (S : OrderItemStreams) :
    (generate_order_items orders products m S).2
      = orders.map (fun o =>
          { o with total_amount :=
              round2 (accum_totals (fun _ => 0)
                (generate_order_items orders products m S).1 o.order_id) }) := rfl

/-- C1: after `generate_order_items` completes, each order's `total_amount`
equals the sum of the `total` fields of all order items whose `order_id`
equals that order's id, rounded to 2 decimal places, and equals `0` for an
order referenced by no order item. -/
theorem C1_order_totals (orders : List Order) (products : List Product) (m : ℕ)
    (S : OrderItemStreams) (o : Order)
    (ho : o ∈ (generate_order_items orders products m S).2) :
    o.total_amount
        = round2 (items_total_for (generate_order_items orders products m S).1 o.order_id) ∧
    ((generate_order_items orders products m S).1.filter
        (fun it => it.order_id == o.order_id) = [] → o.total_amount = 0) := by
  rw [generate_order_items_snd] at ho
  obtain ⟨o0, _, rfl⟩ := List.mem_map.mp ho
  constructor
  · show round2 (accum_totals (fun _ => 0) _ o0.order_id)
        = round2 (items_total_for _ o0.order_id)
    rw [accum_totals_spec]
    norm_num
  · intro hfilt
    show round2 (accum_totals (fun _ => 0) _ o0.order_id) = 0
    rw [accum_totals_spec]
    have hz : items_total_for (generate_order_items orders products m S).1 o0.order_id = 0 := by
      unfold items_total_for
      rw [hfilt]
      simp
    rw [hz]
    simpa using round2_zero

/-! ## Concrete fixtures for witnesses and counterexamples -/

/-- A concrete order used as witness input. -/
def wOrder : Order :=
  { order_id := 1, customer_id := 1, order_date := 0, status := "Pending",
    shipping_address := "", shipped_date := none, delivery_date := none,
    total_amount := 0 }

/-- A concrete product used as witness input. -/
def wProduct : Product :=
  { product_id := 1, product_name := "P", category := "Books", price := 10,
    cost := 4, stock_quantity := 1, supplier := "S", created_at := 0, rating := 4 }

/-- Concrete order-item draws: everything 0 except `discRoll = 1` (no discount). -/
def wItemStreams : OrderItemStreams :=
  ⟨fun _ => 0, fun _ => 0, fun _ => 0, fun _ => 0, fun _ => 1, fun _ => 0⟩

/-- The updated order produced by the C1 witness run. -/
def wC1order : Order := (generate_order_items [wOrder] [wProduct] 1 wItemStreams).2.getD 0 default

/-- Witness for C1 at a concrete input: one order, one product, one item. -/
theorem C1_order_totals_witness :
    wC1order ∈ (generate_order_items [wOrder] [wProduct] 1 wItemStreams).2 ∧
    (wC1order.total_amount
        = round2 (items_total_for (generate_order_items [wOrder] [wProduct] 1 wItemStreams).1
            wC1order.order_id) ∧
     ((generate_order_items [wOrder] [wProduct] 1 wItemStreams).1.filter
        (fun it => it.order_id == wC1order.order_id) = [] → wC1order.total_amount = 0)) := by
  have h0 : 0 < (generate_order_items [wOrder] [wProduct] 1 wItemStreams).2.length := by
    rw [generate_order_items_snd]
    simp
  have hmem : wC1order ∈ (generate_order_items [wOrder] [wProduct] 1 wItemStreams).2 := by
    unfold wC1order
    rw [List.getD_eq_getElem _ _ h0]
    exact List.getElem_mem h0
  exact ⟨hmem, C1_order_totals [wOrder] [wProduct] 1 wItemStreams wC1order hmem⟩

/-! ## Identity lemmas for ids -/

/-- Customer ids are the sequence `1..n`. -/
theorem generate_customers_ids (n : ℕ) (S : CustomerStreams) (now : ℤ) :
    (generate_customers n S now).map Customer.customer_id = (List.range n).map (· + 1) := by
  unfold generate_customers
  rw [List.map_map]
  rfl

/-- Order ids are the sequence `1..n`. -/
theorem generate_orders_ids (n : ℕ) (customers : List Customer) (S : OrderStreams) (now : ℤ) :
    (generate_orders n customers S now).map Order.order_id = (List.range n).map (· + 1) := by
  unfold generate_orders
  rw [List.map_map]
  rfl

/-- Product ids are the sequence `1..n`. -/
theorem generate_products_ids (n : ℕ) (S : ProductStreams) (now : ℤ) :
    (generate_products n S now).map Product.product_id = (List.range n).map (· + 1) := by
  unfold generate_products
  rw [List.map_map]
  rfl

/-- Rewriting the totals preserves each order's id. -/
theorem updated_orders_ids (orders : List Order) (products : List Product) (m : ℕ)
    (S : OrderItemStreams) :
    ((generate_order_items orders products m S).2).map Order.order_id
      = orders.map Order.order_id := by
  rw [generate_order_items_snd, List.map_map]
  rfl

/-- Each payment carries the id of the order it was built from, in order. -/
theorem payments_from_ids (S : PaymentStreams) (orders : List Order) :
    ∀ pid, (payments_from S pid orders).map Payment.order_id = orders.map Order.order_id := by
  induction orders with
  | nil => intro pid; rfl
  | cons o rest ih =>
      intro pid
      simp only [payments_from, List.map_cons, ih]
      rfl

/-- The sequence `1..n` has no duplicates. -/
theorem nodup_seq_ids (n : ℕ) : ((List.range n).map (· + 1)).Nodup :=
  (List.nodup_range n).map (fun a b h => by omega)

/-- Definition `generate_dataset` unfolded (the lets of the definition spelled out). -/
theorem generate_dataset_def (nc np no ni : ℕ) (S : Streams) (now : ℤ) :
    generate_dataset nc np no ni S now =
      { customers := generate_customers nc S.cust now
        products := generate_products np S.prod now
        orders := (generate_order_items
            (generate_orders no (generate_customers nc S.cust now) S.ord now)
            (generate_products np S.prod now) ni S.item).2
        order_items := (generate_order_items
            (generate_orders no (generate_customers nc S.cust now) S.ord now)
            (generate_products np S.prod now) ni S.item).1
        payments := generate_payments
            ((generate_order_items
              (generate_orders no (generate_customers nc S.cust now) S.ord now)
              (generate_products np S.prod now) ni S.item).2) S.pay } := rfl

/-- The orders of a generated dataset carry the ids `1..no`. -/
theorem dataset_orders_ids (nc np no ni : ℕ) (S : Streams) (now : ℤ) :
    ((generate_dataset nc np no ni S now).orders).map Order.order_id
      = (List.range no).map (· + 1) := by
  rw [generate_dataset_def]
  show ((generate_order_items _ _ ni S.item).2).map Order.order_id = _
  rw [updated_orders_ids, generate_orders_ids]

/-! ## C2: payments -/

/-- Each payment built by `payments_from` comes from some order of the input
list, with `payment_amount` equal to that order's `total_amount` and a fee of
`round2` of a 2-3% fraction of it. -/
theorem payments_from_spec (S : PaymentStreams)
    (hfee : ∀ i, 0 ≤ S.feeU i ∧ S.feeU i ≤ 1) (orders : List Order) :
    ∀ pid, ∀ p ∈ payments_from S pid orders, ∃ o ∈ orders,
      p.order_id = o.order_id ∧ p.payment_amount = o.total_amount ∧
      ∃ r : ℚ, 1/50 ≤ r ∧ r ≤ 3/100 ∧
        p.transaction_fee = round2 (o.total_amount * r) := by
  induction orders with
  | nil => intro pid p hp; simp [payments_from] at hp
  | cons o rest ih =>
      intro pid p hp
      rw [payments_from] at hp
      rcases List.mem_cons.mp hp with rfl | hmem
      · refine ⟨o, List.mem_cons_self o rest, rfl, rfl,
          uniformR (S.feeU pid) (1/50) (3/100), ?_, ?_, rfl⟩
        · have h1 := (hfee pid).1
          unfold uniformR
          nlinarith
        · have h2 := (hfee pid).2
          unfold uniformR
          nlinarith
      · obtain ⟨o2, ho2, h⟩ := ih (pid + 1) p hmem
        exact ⟨o2, List.mem_cons_of_mem o ho2, h⟩

/-- In a list of payments whose `order_id`s mirror the orders' ids, each order
with a duplicate-free id list is referenced by exactly one payment. -/
theorem payments_count_one (orders : List Order) (S : PaymentStreams)
    (hnd : (orders.map Order.order_id).Nodup) (o : Order) (ho : o ∈ orders) :
    ((generate_payments orders S).filter (fun p => p.order_id == o.order_id)).length = 1 := by
  rw [← List.countP_eq_length_filter]
  have h1 : (generate_payments orders S).countP (fun p => p.order_id == o.order_id)
      = ((generate_payments orders S).map Payment.order_id).countP (fun x => x == o.order_id) := by
    rw [List.countP_map]
    rfl
  rw [h1, generate_payments, payments_from_ids, ← List.count_eq_countP]
  exact List.count_eq_one_of_mem hnd (List.mem_map_of_mem Order.order_id ho)

/-- C2: the payments collection of a generated dataset contains exactly one
payment per order; each payment's `payment_amount` equals its order's
`total_amount` exactly (not independently randomized), and its
`transaction_fee` is `round2` of a random 2-3% fraction of that amount and
is not added into `payment_amount`. -/
theorem C2_payments (nc np no ni : ℕ) (S : Streams) (now : ℤ)
    (hfee : ∀ i, 0 ≤ S.pay.feeU i ∧ S.pay.feeU i ≤ 1) :
    (generate_dataset nc np no ni S now).payments.length
        = (generate_dataset nc np no ni S now).orders.length ∧
    (∀ o ∈ (generate_dataset nc np no ni S now).orders,
      ((generate_dataset nc np no ni S now).payments.filter
          (fun p => p.order_id == o.order_id)).length = 1) ∧
    (∀ p ∈ (generate_dataset nc np no ni S now).payments,
      ∃ o ∈ (generate_dataset nc np no ni S now).orders,
        p.order_id = o.order_id ∧
        p.payment_amount = o.total_amount ∧
        ∃ r : ℚ, 1/50 ≤ r ∧ r ≤ 3/100 ∧
          p.transaction_fee = round2 (o.total_amount * r)) := by
  have hnd : ((generate_dataset nc np no ni S now).orders.map Order.order_id).Nodup := by
    rw [dataset_orders_ids]
    exact nodup_seq_ids no
  have hpay : (generate_dataset nc np no ni S now).payments
      = generate_payments ((generate_dataset nc np no ni S now).orders) S.pay := by
    rw [generate_dataset_def]
  refine ⟨?_, ?_, ?_⟩
  · rw [hpay]
    have := payments_from_ids S.pay ((generate_dataset nc np no ni S now).orders) 1
    have hlen := congrArg List.length this
    simpa [generate_payments] using hlen
  · intro o ho
    rw [hpay]
    exact payments_count_one _ S.pay hnd o ho
  · intro p hp
    rw [hpay] at hp
    exact payments_from_spec S.pay hfee _ 1 p hp

/-- Concrete payment draws for the C2 witness: all fee draws are 0. -/
def wPayStreams : PaymentStreams :=
  ⟨fun _ => 0, fun _ => 0, fun _ => 0, fun _ => 0, fun _ => "TX"⟩

/-- Concrete customer draws for witnesses. -/
def wCustStreams : CustomerStreams :=
  ⟨fun _ => "F", fun _ => "L", fun _ => "e@x.com", fun _ => "1", fun _ => "A",
   fun _ => "C", fun _ => "ST", fun _ => "Z", fun _ => 0, fun _ => 0⟩

/-- Concrete product draws for witnesses. -/
def wProdStreams : ProductStreams :=
  ⟨fun _ => 0, fun _ => 0, fun _ => "W", fun _ => "SUP", fun _ => 0, fun _ => 0,
   fun _ => 0, fun _ => 0, fun _ => 0⟩

/-- Concrete order draws for witnesses. -/
def wOrderStreams : OrderStreams :=
  ⟨fun _ => 0, fun _ => 0, fun _ => 0, fun _ => 0, fun _ => 0, fun _ => "A",
   fun _ => "C", fun _ => "ST", fun _ => "Z"⟩

/-- A full concrete draw bundle for witnesses. -/
def wStreams : Streams := ⟨wCustStreams, wProdStreams, wOrderStreams, wItemStreams, wPayStreams⟩

/-- Witness for C2 at a concrete input. -/
theorem C2_payments_witness :
    (∀ i, 0 ≤ wStreams.pay.feeU i ∧ wStreams.pay.feeU i ≤ 1) ∧
    ((generate_dataset 1 1 1 1 wStreams 0).payments.length
        = (generate_dataset 1 1 1 1 wStreams 0).orders.length ∧
     (∀ o ∈ (generate_dataset 1 1 1 1 wStreams 0).orders,
       ((generate_dataset 1 1 1 1 wStreams 0).payments.filter
           (fun p => p.order_id == o.order_id)).length = 1) ∧
     (∀ p ∈ (generate_dataset 1 1 1 1 wStreams 0).payments,
       ∃ o ∈ (generate_dataset 1 1 1 1 wStreams 0).orders,
         p.order_id = o.order_id ∧
         p.payment_amount = o.total_amount ∧
         ∃ r : ℚ, 1/50 ≤ r ∧ r ≤ 3/100 ∧
           p.transaction_fee = round2 (o.total_amount * r))) :=
  ⟨fun _ => ⟨le_refl 0, zero_le_one⟩,
   C2_payments 1 1 1 1 wStreams 0 (fun _ => ⟨le_refl 0, zero_le_one⟩)⟩

/-! ## C3: referential integrity -/

/-- Every generated order's `customer_id` is the id of a generated customer. -/
theorem generate_orders_customer_mem (n : ℕ) (customers : List Customer)
    (S : OrderStreams) (now : ℤ) (h : customers ≠ []) :
    ∀ o ∈ generate_orders n customers S now,
      o.customer_id ∈ customers.map Customer.customer_id := by
  intro o ho
  unfold generate_orders at ho
  obtain ⟨i, _, rfl⟩ := List.mem_map.mp ho
  exact List.mem_map_of_mem Customer.customer_id (choice_mem customers default _ h)

/-- Every generated order item references an existing order and product. -/
theorem mk_order_item_mem (orders : List Order) (products : List Product)
    (S : OrderItemStreams) (i : ℕ) (ho : orders ≠ []) (hp : products ≠ []) :
    (mk_order_item orders products S i).order_id ∈ orders.map Order.order_id ∧
    (mk_order_item orders products S i).product_id ∈ products.map Product.product_id :=
  ⟨List.mem_map_of_mem Order.order_id (choice_mem orders default _ ho),
   List.mem_map_of_mem Product.product_id (choice_mem products default _ hp)⟩

/-- C3: in a generated dataset (with at least one customer, product and
order, as the configuration `randint(100, 300)` always provides), every
order's `customer_id` resolves to a generated customer, every order item's
`order_id` and `product_id` resolve to a generated order and product, every
payment's `order_id` resolves to a generated order, and no two payments
share an `order_id`. -/
theorem C3_referential_integrity (nc np no ni : ℕ) (S : Streams) (now : ℤ)
    (hnc : 1 ≤ nc) (hnp : 1 ≤ np) (hno : 1 ≤ no) :
    (∀ o ∈ (generate_dataset nc np no ni S now).orders,
       o.customer_id
         ∈ (generate_dataset nc np no ni S now).customers.map Customer.customer_id) ∧
    (∀ it ∈ (generate_dataset nc np no ni S now).order_items,
       it.order_id ∈ (generate_dataset nc np no ni S now).orders.map Order.order_id ∧
       it.product_id
         ∈ (generate_dataset nc np no ni S now).products.map Product.product_id) ∧
    (∀ p ∈ (generate_dataset nc np no ni S now).payments,
       p.order_id ∈ (generate_dataset nc np no ni S now).orders.map Order.order_id) ∧
    ((generate_dataset nc np no ni S now).payments.map Payment.order_id).Nodup := by
  have hcust : generate_customers nc S.cust now ≠ [] := by
    apply List.ne_nil_of_length_pos
    have : (generate_customers nc S.cust now).length = nc := by
      unfold generate_customers
      simp
    omega
  have hprodne : generate_products np S.prod now ≠ [] := by
    apply List.ne_nil_of_length_pos
    have : (generate_products np S.prod now).length = np := by
      unfold generate_products
      simp
    omega
  have hordne : generate_orders no (generate_customers nc S.cust now) S.ord now ≠ [] := by
    apply List.ne_nil_of_length_pos
    have : (generate_orders no (generate_customers nc S.cust now) S.ord now).length = no := by
      unfold generate_orders
      simp
    omega
  have hpayids : (generate_dataset nc np no ni S now).payments.map Payment.order_id
      = ((generate_dataset nc np no ni S now).orders).map Order.order_id := by
    rw [generate_dataset_def]
    exact payments_from_ids S.pay _ 1
  have hordids : ((generate_dataset nc np no ni S now).orders).map Order.order_id
      = (generate_orders no (generate_customers nc S.cust now) S.ord now).map Order.order_id := by
    rw [generate_dataset_def]
    exact updated_orders_ids _ _ ni S.item
  refine ⟨?_, ?_, ?_, ?_⟩
  · intro o ho
    rw [generate_dataset_def] at ho ⊢
    rw [generate_order_items_snd] at ho
    obtain ⟨o0, ho0, rfl⟩ := List.mem_map.mp ho
    exact generate_orders_customer_mem no _ S.ord now hcust o0 ho0
  · intro it hit
    rw [hordids]
    rw [generate_dataset_def] at hit ⊢
    rw [generate_order_items_fst] at hit
    obtain ⟨j, _, rfl⟩ := List.mem_map.mp hit
    exact mk_order_item_mem _ _ S.item (j + 1) hordne hprodne
  · intro p hp
    have : p.order_id ∈ (generate_dataset nc np no ni S now).payments.map Payment.order_id :=
      List.mem_map_of_mem Payment.order_id hp
    rw [hpayids] at this
    exact this
  · rw [hpayids, hordids, generate_orders_ids]
    exact nodup_seq_ids no

/-- Witness for C3 at a concrete input. -/
theorem C3_referential_integrity_witness :
    (1 ≤ 1 ∧ 1 ≤ 1 ∧ 1 ≤ 1) ∧
    ((∀ o ∈ (generate_dataset 1 1 1 1 wStreams 0).orders,
        o.customer_id
          ∈ (generate_dataset 1 1 1 1 wStreams 0).customers.map Customer.customer_id) ∧
     (∀ it ∈ (generate_dataset 1 1 1 1 wStreams 0).order_items,
        it.order_id ∈ (generate_dataset 1 1 1 1 wStreams 0).orders.map Order.order_id ∧
        it.product_id
          ∈ (generate_dataset 1 1 1 1 wStreams 0).products.map Product.product_id) ∧
     (∀ p ∈ (generate_dataset 1 1 1 1 wStreams 0).payments,
        p.order_id ∈ (generate_dataset 1 1 1 1 wStreams 0).orders.map Order.order_id) ∧
     ((generate_dataset 1 1 1 1 wStreams 0).payments.map Payment.order_id).Nodup) :=
  ⟨⟨le_refl 1, le_refl 1, le_refl 1⟩,
   C3_referential_integrity 1 1 1 1 wStreams 0 (le_refl 1) (le_refl 1) (le_refl 1)⟩

/-! ## C4: reproducibility -/

/-- Counterexample to C4: two runs of the generation step with the SAME
seed-determined draws (`wStreams`) but started one day apart (`now = 0`
versus `now = ONE_DAY`) produce different customer collections and different
`customers.csv` bytes, because `created_at` is drawn by
`fake.date_time_between(start_date='-2y', end_date='now')`, whose bounds
move with the wall clock.  A fixed seed therefore does NOT imply identical
collections or byte-identical CSV output. -/
theorem C4_counterexample :
    (generate_dataset 1 1 1 1 wStreams 0).customers
        ≠ (generate_dataset 1 1 1 1 wStreams ONE_DAY).customers ∧
    customers_csv (generate_dataset 1 1 1 1 wStreams 0).customers
        ≠ customers_csv (generate_dataset 1 1 1 1 wStreams ONE_DAY).customers := by
  constructor <;> decide

/-- C4 amended: generation is deterministic in the pair (seed-determined
draws, current time): two runs with the same draws and the same clock
produce identical record collections and identical CSV bytes. -/
theorem C4_amended_determinism (nc np no ni : ℕ) (S1 S2 : Streams) (t1 t2 : ℤ)
    (hS : S1 = S2) (ht : t1 = t2) :
    generate_dataset nc np no ni S1 t1 = generate_dataset nc np no ni S2 t2 ∧
    dataset_csv (generate_dataset nc np no ni S1 t1)
      = dataset_csv (generate_dataset nc np no ni S2 t2) := by
  subst hS
  subst ht
  exact ⟨rfl, rfl⟩

/-- Witness for the amended C4 at a concrete input. -/
theorem C4_amended_determinism_witness :
    wStreams = wStreams ∧ (0 : ℤ) = 0 ∧
    (generate_dataset 2 2 2 2 wStreams 0 = generate_dataset 2 2 2 2 wStreams 0 ∧
     dataset_csv (generate_dataset 2 2 2 2 wStreams 0)
       = dataset_csv (generate_dataset 2 2 2 2 wStreams 0)) :=
  ⟨rfl, rfl, C4_amended_determinism 2 2 2 2 wStreams wStreams 0 0 rfl rfl⟩

/-! ## C5: shipment and delivery dates -/

/-- C5: for every generated order, `shipped_date` is non-null iff the status
is `Shipped` or `Delivered`, `delivery_date` is non-null iff the status is
`Delivered`, and whenever non-null, `shipped_date ≥ order_date` and
`delivery_date ≥ shipped_date`. -/
theorem C5_order_dates (n : ℕ) (customers : List Customer) (S : OrderStreams)
    (now : ℤ) (o : Order) (ho : o ∈ generate_orders n customers S now) :
    (o.shipped_date ≠ none ↔ (o.status = "Shipped" ∨ o.status = "Delivered")) ∧
    (o.delivery_date ≠ none ↔ o.status = "Delivered") ∧
    (∀ s, o.shipped_date = some s → o.order_date ≤ s) ∧
    (∀ s d, o.shipped_date = some s → o.delivery_date = some d → s ≤ d) := by
  unfold generate_orders at ho
  obtain ⟨i, _, rfl⟩ := List.mem_map.mp ho
  have hship : (0:ℤ) ≤ ONE_DAY * (randint (S.shipDays (i+1)) 1 7 : ℤ) :=
    mul_nonneg (by norm_num [ONE_DAY]) (Int.natCast_nonneg _)
  have hdel : (0:ℤ) ≤ ONE_DAY * (randint (S.deliverDays (i+1)) 2 10 : ℤ) :=
    mul_nonneg (by norm_num [ONE_DAY]) (Int.natCast_nonneg _)
  by_cases hD : choice ORDER_STATUSES "Pending" (S.statusSel (i+1)) = "Delivered"
  · refine ⟨?_, ?_, ?_, ?_⟩
    · simp [mk_order, hD]
    · simp [mk_order, hD]
    · intro s hs
      simp only [mk_order, hD, or_true, if_true, Option.some.injEq] at hs
      simp only [mk_order]
      omega
    · intro s d hs hd
      simp only [mk_order, hD, or_true, if_true, if_pos, Option.some.injEq] at hs hd
      omega
  · by_cases hS : choice ORDER_STATUSES "Pending" (S.statusSel (i+1)) = "Shipped"
    · refine ⟨?_, ?_, ?_, ?_⟩
      · simp [mk_order, hS, hD]
      · simp [mk_order, hS, hD]
      · intro s hs
        simp only [mk_order, hS, hD, true_or, if_true, Option.some.injEq] at hs
        simp only [mk_order]
        omega
      · intro s d hs hd
        simp only [mk_order, hD, if_false] at hd
        exact absurd hd (by simp)
    · refine ⟨?_, ?_, ?_, ?_⟩
      · simp [mk_order, hS, hD]
      · simp [mk_order, hS, hD]
      · intro s hs
        simp only [mk_order, hS, hD, or_self, if_false] at hs
        exact absurd hs (by simp)
      · intro s d hs hd
        simp only [mk_order, hD, if_false] at hd
        exact absurd hd (by simp)

/-- Witness for C5 at a concrete input. -/
theorem C5_order_dates_witness :
    ((generate_orders 1 [default] wOrderStreams 0).getD 0 default)
        ∈ generate_orders 1 [default] wOrderStreams 0 ∧
    ((((generate_orders 1 [default] wOrderStreams 0).getD 0 default).shipped_date ≠ none ↔
        (((generate_orders 1 [default] wOrderStreams 0).getD 0 default).status = "Shipped" ∨
         ((generate_orders 1 [default] wOrderStreams 0).getD 0 default).status = "Delivered")) ∧
     (((generate_orders 1 [default] wOrderStreams 0).getD 0 default).delivery_date ≠ none ↔
        ((generate_orders 1 [default] wOrderStreams 0).getD 0 default).status = "Delivered") ∧
     (∀ s, ((generate_orders 1 [default] wOrderStreams 0).getD 0 default).shipped_date = some s →
        ((generate_orders 1 [default] wOrderStreams 0).getD 0 default).order_date ≤ s) ∧
     (∀ s d, ((generate_orders 1 [default] wOrderStreams 0).getD 0 default).shipped_date = some s →
        ((generate_orders 1 [default] wOrderStreams 0).getD 0 default).delivery_date = some d →
        s ≤ d)) := by
  have hmem : ((generate_orders 1 [default] wOrderStreams 0).getD 0 default)
      ∈ generate_orders 1 [default] wOrderStreams 0 := by decide
  exact ⟨hmem, C5_order_dates 1 [default] wOrderStreams 0 _ hmem⟩

/-! ## C6: per-table transactional load -/

/-- A successful insert loop appends exactly the batch to the table. -/
theorem insertAll_some (viol : Row → List Row → Bool) :
    ∀ (rs cur out : List Row), insertAll viol cur rs = some out → out = cur ++ rs := by
  intro rs
  induction rs with
  | nil =>
      intro cur out h
      rw [insertAll] at h
      simp at h
      simp [h.symm]
  | cons r rest ih =>
      intro cur out h
      rw [insertAll] at h
      by_cases hv : viol r cur
      · simp [hv] at h
      · simp only [hv, if_false, Bool.false_eq_true] at h
        have := ih (cur ++ [r]) out h
        simp [this]

/-- C6: for a present CSV file, if the insert loop for the table's batch
raises a constraint violation, the whole batch is rolled back as a unit (the
database is unchanged, so the table has no rows from this batch and all
previously loaded tables keep their rows), the error is reported with the
failing table's name, and the returned count is the number of rows committed
for the table (0); on success the batch is committed and the CSV row count
returned. -/
theorem C6_batch_rollback (fs : String → Option CsvFile)
    (viol : String → Row → List Row → Bool) (db : DB) (t f : String) (csv : CsvFile)
    (hf : fs ("data/" ++ f) = some csv) :
    (insertAll (viol t) (db t) (csv.rows.map normalizeRow) = none →
       load_csv_to_table fs viol db t f
         = { db := db, count := 0, message := some ("Error loading " ++ t) }) ∧
    (∀ nr, insertAll (viol t) (db t) (csv.rows.map normalizeRow) = some nr →
       (load_csv_to_table fs viol db t f).count = csv.rows.length ∧
       (load_csv_to_table fs viol db t f).db t = db t ++ csv.rows.map normalizeRow ∧
       (∀ t2, t2 ≠ t → (load_csv_to_table fs viol db t f).db t2 = db t2) ∧
       (load_csv_to_table fs viol db t f).message = none) := by
  constructor
  · intro hnone
    unfold load_csv_to_table
    rw [hf]
    simp [hnone]
  · intro nr hsome
    have hres : load_csv_to_table fs viol db t f
        = { db := fun t2 => if t2 = t then nr else db t2,
            count := (csv.rows.map normalizeRow).length, message := none } := by
      unfold load_csv_to_table
      rw [hf]
      simp [hsome]
    rw [hres]
    refine ⟨by simp, ?_, ?_, rfl⟩
    · have h2 := insertAll_some (viol t) (csv.rows.map normalizeRow) (db t) nr hsome
      simpa using h2
    · intro t2 ht2
      simp [ht2]

/-- A concrete CSV file with one row, for the C6 witness. -/
def wCsv : CsvFile := { header := ["h"], rows := [["x"]] }

/-- A file system holding only `data/t.csv`, for the C6 witness. -/
def fs6 : String → Option CsvFile := fun p => if p = "data/t.csv" then some wCsv else none

/-- A constraint that always fires, for the C6 witness. -/
def viol6 : String → Row → List Row → Bool := fun _ _ _ => true

/-- An empty database, for witnesses. -/
def emptyDB : DB := fun _ => []

/-- Witness for C6 at a concrete input (the always-failing constraint). -/
theorem C6_batch_rollback_witness :
    fs6 ("data/" ++ "t.csv") = some wCsv ∧
    ((insertAll (viol6 "t") (emptyDB "t") (wCsv.rows.map normalizeRow) = none →
        load_csv_to_table fs6 viol6 emptyDB "t" "t.csv"
          = { db := emptyDB, count := 0, message := some ("Error loading " ++ "t") }) ∧
     (∀ nr, insertAll (viol6 "t") (emptyDB "t") (wCsv.rows.map normalizeRow) = some nr →
        (load_csv_to_table fs6 viol6 emptyDB "t" "t.csv").count = wCsv.rows.length ∧
        (load_csv_to_table fs6 viol6 emptyDB "t" "t.csv").db "t"
            = emptyDB "t" ++ wCsv.rows.map normalizeRow ∧
        (∀ t2, t2 ≠ "t" → (load_csv_to_table fs6 viol6 emptyDB "t" "t.csv").db t2 = emptyDB t2) ∧
        (load_csv_to_table fs6 viol6 emptyDB "t" "t.csv").message = none)) :=
  ⟨by decide, C6_batch_rollback fs6 viol6 emptyDB "t" "t.csv" wCsv (by decide)⟩

/-! ## C7: destructive reset -/

/-- Function `create_connection` always yields empty tables, whatever was on disk. -/
theorem create_connection_empty (p : Option DB) : create_connection p = fun _ => [] := by
  cases p <;> rfl

/-- C7: re-running the load against an existing store path first discards the
prior store entirely before creating the schema: after connection creation no
row of any table from a previous run survives, and consequently the result of
the whole load is independent of the prior store's contents. -/
theorem C7_destructive_reset :
    (∀ (prior : DB) (t : String), create_connection (some prior) t = []) ∧
    (∀ (fs : String → Option CsvFile) (viol : String → Row → List Row → Bool)
       (p1 p2 : Option DB), load_database_main fs viol p1 = load_database_main fs viol p2) := by
  constructor
  · intro prior t
    rfl
  · intro fs viol p1 p2
    unfold load_database_main
    rw [create_connection_empty, create_connection_empty]

/-! ## C8 and C10: missing input files -/

/-- A file system for the missing-file scenarios: `customers.csv` absent,
`products.csv` present with one row, the remaining three files present and
empty. -/
def fs8 : String → Option CsvFile := fun p =>
  if p = "data/customers.csv" then none
  else if p = "data/products.csv" then some { header := ["h"], rows := [["1"]] }
  else if p = "data/orders.csv" then some { header := ["h"], rows := [] }
  else if p = "data/order_items.csv" then some { header := ["h"], rows := [] }
  else if p = "data/payments.csv" then some { header := ["h"], rows := [] }
  else none

/-- A constraint that never fires, for the C8 counterexample. -/
def viol8 : String → Row → List Row → Bool := fun _ _ _ => false

/-- Counterexample to C8: with `data/customers.csv` missing, the load step
does NOT abort — the remaining tables are still loaded (`products` receives
its row), the step finishes with all five per-table counts, and the pipeline
exits with code 0, not a non-zero code.  Only the reporting half of the
claim holds (the message names the offending file). -/
theorem C8_counterexample :
    (load_database_main fs8 viol8 none).counts
      = [("customers", 0), ("products", 1), ("orders", 0), ("order_items", 0),
         ("payments", 0)] ∧
    (load_database_main fs8 viol8 none).messages
      = ["CSV file not found: data/customers.csv"] ∧
    pipeline_exit_code fs8 viol8 none = 0 := by
  refine ⟨by decide, by decide, rfl⟩

/-- C8 amended: a missing CSV input file is reported with the offending file
name and the table is skipped with a row count of 0 and an unchanged
database; the load step does not abort and the pipeline completes with exit
code 0 (no failure is propagated upstream). -/
theorem C8_amended_missing_file (fs : String → Option CsvFile)
    (viol : String → Row → List Row → Bool) (db : DB) (t f : String)
    (hmiss : fs ("data/" ++ f) = none) :
    load_csv_to_table fs viol db t f
      = { db := db, count := 0, message := some ("CSV file not found: data/" ++ f) } ∧
    (∀ (fs2 : String → Option CsvFile) (viol2 : String → Row → List Row → Bool)
       (p : Option DB), pipeline_exit_code fs2 viol2 p = 0) := by
  constructor
  · unfold load_csv_to_table
    rw [hmiss]
  · intro fs2 viol2 p
    rfl

/-- Witness for the amended C8 at a concrete input. -/
theorem C8_amended_missing_file_witness :
    fs8 ("data/" ++ "customers.csv") = none ∧
    (load_csv_to_table fs8 viol8 emptyDB "customers" "customers.csv"
       = { db := emptyDB, count := 0,
           message := some ("CSV file not found: data/" ++ "customers.csv") } ∧
     (∀ (fs2 : String → Option CsvFile) (viol2 : String → Row → List Row → Bool)
        (p : Option DB), pipeline_exit_code fs2 viol2 p = 0)) :=
  ⟨by decide,
   C8_amended_missing_file fs8 viol8 emptyDB "customers" "customers.csv" (by decide)⟩

/-- A constraint that fires exactly on the `products` table, for the C10
witness. -/
def viol10 : String → Row → List Row → Bool := fun t _ _ => t == "products"

/-- C10 (implicit): `load_csv_to_table` returns 0 and leaves the database
unchanged both when the table's CSV file is missing and when the batch fails
and is rolled back, making either outcome indistinguishable (in count and in
table contents) from a successful load of an empty CSV; the load loop still
produces a count entry for every one of the five tables, and the step never
signals failure to `main.py` (its boolean is `true`, hence exit code 0).
The Lean embedding of `load_csv_to_table` is a total function, mirroring
that the Python function catches its exceptions and returns normally. -/
theorem C10_silent_zero (fs fs0 : String → Option CsvFile)
    (viol : String → Row → List Row → Bool) (db : DB)
    (t1 f1 t2 f2 t3 f3 : String) (csv : CsvFile) (hdr : List String)
    (h1 : fs ("data/" ++ f1) = none)
    (h2 : fs ("data/" ++ f2) = some csv)
    (h3 : insertAll (viol t2) (db t2) (csv.rows.map normalizeRow) = none)
    (h4 : fs0 ("data/" ++ f3) = some { header := hdr, rows := [] }) :
    ((load_csv_to_table fs viol db t1 f1).count = 0 ∧
     (load_csv_to_table fs viol db t1 f1).db = db) ∧
    ((load_csv_to_table fs viol db t2 f2).count = 0 ∧
     (load_csv_to_table fs viol db t2 f2).db = db) ∧
    ((load_csv_to_table fs0 viol db t3 f3).count = 0 ∧
     (load_csv_to_table fs0 viol db t3 f3).db t3 = db t3) ∧
    ((load_all fs viol db).counts.map Prod.fst
      = ["customers", "products", "orders", "order_items", "payments"]) ∧
    (step_2_load_database fs viol (some db)).1 = true := by
  refine ⟨?_, ?_, ?_, ?_, rfl⟩
  · unfold load_csv_to_table
    rw [h1]
    exact ⟨rfl, rfl⟩
  · unfold load_csv_to_table
    rw [h2]
    simp [h3]
  · unfold load_csv_to_table
    rw [h4]
    simp [insertAll]
  · rfl

/-- Witness for C10 at a concrete input: `fs8` with a constraint that fails
the `products` batch. -/
theorem C10_silent_zero_witness :
    fs8 ("data/" ++ "customers.csv") = none ∧
    fs8 ("data/" ++ "products.csv") = some { header := ["h"], rows := [["1"]] } ∧
    insertAll (viol10 "products") (emptyDB "products")
        (List.map normalizeRow ({ header := ["h"], rows := [["1"]] } : CsvFile).rows)
      = none ∧
    fs8 ("data/" ++ "orders.csv") = some { header := ["h"], rows := [] } ∧
    (((load_csv_to_table fs8 viol10 emptyDB "customers" "customers.csv").count = 0 ∧
      (load_csv_to_table fs8 viol10 emptyDB "customers" "customers.csv").db = emptyDB) ∧
     ((load_csv_to_table fs8 viol10 emptyDB "products" "products.csv").count = 0 ∧
      (load_csv_to_table fs8 viol10 emptyDB "products" "products.csv").db = emptyDB) ∧
     ((load_csv_to_table fs8 viol10 emptyDB "orders" "orders.csv").count = 0 ∧
      (load_csv_to_table fs8 viol10 emptyDB "orders" "orders.csv").db "orders"
        = emptyDB "orders") ∧
     ((load_all fs8 viol10 emptyDB).counts.map Prod.fst
       = ["customers", "products", "orders", "order_items", "payments"]) ∧
     (step_2_load_database fs8 viol10 (some emptyDB)).1 = true) :=
  ⟨by decide, by decide, by decide, by decide,
   C10_silent_zero fs8 fs8 viol10 emptyDB "customers" "customers.csv" "products"
     "products.csv" "orders" "orders.csv" { header := ["h"], rows := [["1"]] } ["h"]
     (by decide) (by decide) (by decide) (by decide)⟩

/-! ## C9: customer ids and emails -/

/-- Customer draws whose email stream is constant: `fake.email()` (without
`fake.unique`) can return the same address twice, and the generator performs
no deduplication. -/
def cS9 : CustomerStreams :=
  ⟨fun _ => "f", fun _ => "l", fun _ => "dup@example.com", fun _ => "p", fun _ => "s",
   fun _ => "c", fun _ => "st", fun _ => "z", fun _ => 0, fun _ => 0⟩

/-- Counterexample to C9: under email draws that repeat (which nothing in
`generate_customers` prevents — it calls `fake.email()` with no uniqueness
mechanism), two generated customers share an email, so the generated email
values are not pairwise distinct. -/
theorem C9_counterexample :
    ¬ (((generate_customers 2 cS9 0).map Customer.email).Nodup) := by decide

/-- C9 amended: customer ids are always unique; the emails are pairwise
distinct exactly when the underlying email draws assign distinct addresses
to distinct customers — the generator itself enforces no email uniqueness. -/
theorem C9_amended_unique (n : ℕ) (S : CustomerStreams) (now : ℤ)
    (hinj : ∀ i j, 1 ≤ i → i ≤ n → 1 ≤ j → j ≤ n → S.email i = S.email j → i = j) :
    ((generate_customers n S now).map Customer.customer_id).Nodup ∧
    ((generate_customers n S now).map Customer.email).Nodup := by
  constructor
  · rw [generate_customers_ids]
    exact nodup_seq_ids n
  · unfold generate_customers
    rw [List.map_map]
    refine List.Nodup.map_on ?_ (List.nodup_range n)
    intro x hx y hy hxy
    have hx2 : x < n := List.mem_range.mp hx
    have hy2 : y < n := List.mem_range.mp hy
    have := hinj (x + 1) (y + 1) (by omega) (by omega) (by omega) (by omega) hxy
    omega

/-- Witness for the amended C9 at a concrete input. -/
theorem C9_amended_unique_witness :
    (∀ i j, 1 ≤ i → i ≤ 1 → 1 ≤ j → j ≤ 1 → cS9.email i = cS9.email j → i = j) ∧
    (((generate_customers 1 cS9 0).map Customer.customer_id).Nodup ∧
     ((generate_customers 1 cS9 0).map Customer.email).Nodup) :=
  ⟨fun i j h1 h2 h3 h4 _ => by omega,
   C9_amended_unique 1 cS9 0 (fun i j h1 h2 h3 h4 _ => by omega)⟩

end ECom
